import Mathlib

/-!
Verification of the OpenRAVE inverse-kinematics solver subsystem:
the `IkSolverBase::Parameterization` value type (rave/iksolver.h),
the plugin dispatch functions (plugins/ikfastsolvers/ikfastsolvers.cpp and
plugins/rmanipulation/rmanipulation.cpp), and the free-parameter null-space
search engine described by the design document (whose implementation,
ikbase.h / IkFastSolver, is not among the visible sources and is therefore
modelled from the specification).

All real numbers (`dReal`) are embedded as rationals.
-/

namespace OpenRAVE

/-- OpenRAVE `Vector`: a 4-component vector (also used for quaternions). -/
structure Vector where
  x : ℚ
  y : ℚ
  z : ℚ
  w : ℚ
deriving DecidableEq, Repr

/-- OpenRAVE `Transform`: a rotation quaternion plus a translation. -/
structure Transform where
  rot : Vector
  trans : Vector
deriving DecidableEq, Repr

/-- OpenRAVE `RAY`: position and direction; the constructor `RAY(pos, dir)`. -/
structure RAY where
  pos : Vector
  dir : Vector
deriving DecidableEq, Repr

/-- `IkSolverBase::Parameterization::Type` from rave/iksolver.h. -/
inductive ParamType where
  | Type_None
  | Type_Transform6D
  | Type_Rotation3D
  | Type_Translation3D
  | Type_Direction2D
  | Type_Ray4D
deriving DecidableEq, Repr

/-- `IkSolverBase::Parameterization`: protected members `_transform` and `_type`. -/
structure Parameterization where
  xform : Transform
  ptype : ParamType
deriving DecidableEq, Repr

namespace Parameterization

/-- Default constructor `Parameterization() : _type(Type_None)`; the transform
is default-constructed (identity quaternion, zero translation). -/
def default : Parameterization :=
  { xform := { rot := ⟨1, 0, 0, 0⟩, trans := ⟨0, 0, 0, 0⟩ }, ptype := .Type_None }

/-- `SetTransform(t) { _type = Type_Transform6D; _transform = t; }` -/
def SetTransform (p : Parameterization) (t : Transform) : Parameterization :=
  { p with ptype := .Type_Transform6D, xform := t }

/-- `SetRotation(q) { _type = Type_Rotation3D; _transform.rot = quaternion; }` -/
def SetRotation (p : Parameterization) (quaternion : Vector) : Parameterization :=
  { p with ptype := .Type_Rotation3D, xform := { p.xform with rot := quaternion } }

/-- `SetTranslation(t) { _type = Type_Translation3D; _transform.trans = trans; }` -/
def SetTranslation (p : Parameterization) (trans : Vector) : Parameterization :=
  { p with ptype := .Type_Translation3D, xform := { p.xform with trans := trans } }

/-- `SetDirection(d) { _type = Type_Direction2D; _transform.rot = dir; }` -/
def SetDirection (p : Parameterization) (dir : Vector) : Parameterization :=
  { p with ptype := .Type_Direction2D, xform := { p.xform with rot := dir } }

/-- `SetRay(r) { _type = Type_Ray4D; _transform.trans = ray.pos; _transform.rot = ray.dir; }` -/
def SetRay (p : Parameterization) (ray : RAY) : Parameterization :=
  { p with ptype := .Type_Ray4D,
           xform := { trans := ray.pos, rot := ray.dir } }

/-- Converting constructor `Parameterization(const RAY& r) { SetRay(r); }`. -/
def ofRay (r : RAY) : Parameterization :=
  Parameterization.default.SetRay r

/-- Converting constructor `Parameterization(const Transform& t) { SetTransform(t); }`. -/
def ofTransform (t : Transform) : Parameterization :=
  Parameterization.default.SetTransform t

/-- `GetType() const { return _type; }` -/
def GetType (p : Parameterization) : ParamType := p.ptype

/-- `GetTransform() const { return _transform; }` -/
def GetTransform (p : Parameterization) : Transform := p.xform

/-- `GetRotation() const { return _transform.rot; }` -/
def GetRotation (p : Parameterization) : Vector := p.xform.rot

/-- `GetTranslation() const { return _transform.trans; }` -/
def GetTranslation (p : Parameterization) : Vector := p.xform.trans

/-- `GetDirection() const { return _transform.rot; }` -/
def GetDirection (p : Parameterization) : Vector := p.xform.rot

/-- `GetRay() const { return RAY(_transform.trans, _transform.rot); }` -/
def GetRay (p : Parameterization) : RAY :=
  { pos := p.xform.trans, dir := p.xform.rot }

end Parameterization

end OpenRAVE

namespace OpenRAVE

/-- `InterfaceType` / `PluginType`: the embedding keeps the two values the
dispatch switches distinguish; every other enumerator falls to the default
branch and is collapsed into `PT_Other`. -/
inductive InterfaceType where
  | PT_ProblemInstance
  | PT_InverseKinematicsSolver
  | PT_Other
deriving DecidableEq, Repr

/-- Numeric value of a decimal digit character, none otherwise. -/
def digitVal (c : Char) : Option ℕ :=
  if c.isDigit then some (c.toNat - 48) else none

/-- Accumulate a digit string into a natural number; none on a non-digit. -/
def parseNatDigits (cs : List Char) : Option ℕ :=
  cs.foldl
    (fun acc c =>
      match acc, digitVal c with
      | some n, some d => some (10 * n + d)
      | _, _ => none)
    (some 0)

/-- Stream extraction of a `dReal` from one whitespace-delimited token:
an optional sign, an integer part and an optional fractional part, as the
C++ numeric extraction accepts for tokens such as "0.04" or "-1.5". -/
def parseDReal (s : String) : Option ℚ :=
  let cs := s.toList
  let signAndBody : ℚ × List Char :=
    match cs with
    | '-' :: rest => (-1, rest)
    | '+' :: rest => (1, rest)
    | _ => (1, cs)
  let body := signAndBody.2
  if body.isEmpty then none
  else
    match body.splitOn '.' with
    | [intPart] =>
      match parseNatDigits intPart with
      | some n => some (signAndBody.1 * n)
      | none => none
    | [intPart, fracPart] =>
      if intPart.isEmpty ∧ fracPart.isEmpty then none
      else
        match parseNatDigits intPart, parseNatDigits fracPart with
        | some n, some f =>
          some (signAndBody.1 * ((n : ℚ) + (f : ℚ) / (10 : ℚ) ^ fracPart.length))
        | _, _ => none
    | _ => none

/-- `sinput >> stringVar`: take the next token of the stream, none when the
stream is exhausted (extraction failure, `!!sinput` then false). -/
def extractToken : List String → Option String × List String
  | [] => (none, [])
  | t :: rest => (some t, rest)

/-- `sinput >> realVar`: read the next token as a `dReal`; when extraction
fails (stream exhausted or token not numeric) the variable keeps its previous
value, as in the stream semantics this code was written against. -/
def extractReal (old : ℚ) : List String → ℚ × List String
  | [] => (old, [])
  | t :: rest =>
    match parseDReal t with
    | some x => (x, rest)
    | none => (old, t :: rest)

/-- The mechanism-specific solver names registered by the ikfastsolvers
plugin, in the order of the if/else chain of `CreateInterfaceValidated`. -/
def ikfastKernelNames : List String :=
  ["wam7ikfast", "pa10ikfast", "pumaikfast",
   "ikfast_pr2_head", "ikfast_pr2_head_torso",
   "ikfast_pr2_rightarm", "ikfast_pr2_rightarm_torso",
   "ikfast_pr2_leftarm", "ikfast_pr2_leftarm_torso",
   "ikfast_schunk_lwa3", "ikfast_katana5d"]

/-- The interface objects the ikfastsolvers plugin can construct: a solver
delegated to `IKFastProblem::CreateIkSolver`, an embedded-kernel
`IkFastSolver` recording the kernel namespace and the free increment it was
constructed with, or the `IKFastProblem` problem instance. -/
inductive IkfastIface where
  | kernelSolver (kernel : String) (freeinc : ℚ)
  | ikfastProblem
deriving DecidableEq, Repr

/-- `CreateInterfaceValidated` of plugins/ikfastsolvers/ikfastsolvers.cpp.
`createIkSolver` stands for the external `IKFastProblem::CreateIkSolver`
(its definition is outside the visible sources); the stream `sinput` is the
list of whitespace-delimited tokens after the interface name.  `freeinc`
starts at the default 0.04 and is overwritten only by a successful numeric
extraction. -/
def CreateInterfaceValidated (createIkSolver : String → ℚ → Option IkfastIface)
    (type : InterfaceType) (interfacename : String) (sinput : List String) :
    Option IkfastIface :=
  let freeinc : ℚ := 4 / 100
  match type with
  | .PT_InverseKinematicsSolver =>
    if interfacename = "ikfast" then
      match extractToken sinput with
      | (none, _) => none
      | (some ikfastname, rest) =>
        let freeinc := (extractReal freeinc rest).1
        createIkSolver ikfastname freeinc
    else
      let freeinc := (extractReal freeinc sinput).1
      if interfacename = "wam7ikfast" then some (.kernelSolver "wam7ikfast" freeinc)
      else if interfacename = "pa10ikfast" then some (.kernelSolver "pa10ikfast" freeinc)
      else if interfacename = "pumaikfast" then some (.kernelSolver "pumaikfast" freeinc)
      else if interfacename = "ikfast_pr2_head" then
        some (.kernelSolver "ikfast_pr2_head" freeinc)
      else if interfacename = "ikfast_pr2_head_torso" then
        some (.kernelSolver "ikfast_pr2_head_torso" freeinc)
      else if interfacename = "ikfast_pr2_rightarm" then
        some (.kernelSolver "ikfast_pr2_rightarm" freeinc)
      else if interfacename = "ikfast_pr2_rightarm_torso" then
        some (.kernelSolver "ikfast_pr2_rightarm_torso" freeinc)
      else if interfacename = "ikfast_pr2_leftarm" then
        some (.kernelSolver "ikfast_pr2_leftarm" freeinc)
      else if interfacename = "ikfast_pr2_leftarm_torso" then
        some (.kernelSolver "ikfast_pr2_leftarm_torso" freeinc)
      else if interfacename = "ikfast_schunk_lwa3" then
        some (.kernelSolver "ikfast_schunk_lwa3" freeinc)
      else if interfacename = "ikfast_katana5d" then
        some (.kernelSolver "ikfast_katana5d" freeinc)
      else none
  | .PT_ProblemInstance =>
    if interfacename = "ikfast" then some .ikfastProblem else none
  | .PT_Other => none

/-- `::tolower` on one character in the "C" locale: ASCII upper-case letters
map to their lower-case counterparts, everything else is unchanged. -/
def charToLower (c : Char) : Char :=
  if 'A' ≤ c ∧ c ≤ 'Z' then Char.ofNat (c.toNat + 32) else c

/-- `std::transform(s.begin(), s.end(), s.begin(), ::tolower)`. -/
def strToLower (s : String) : String :=
  String.mk (s.toList.map charToLower)

/-- The problem instances the rmanipulation plugin can construct. -/
inductive RmanipIface where
  | baseManipulation
  | taskManipulation
  | taskCaging
  | visualFeedback
deriving DecidableEq, Repr

/-- `CreateInterface` of plugins/rmanipulation/rmanipulation.cpp.
`hashOk` is the outcome of the `strcmp(pluginhash, RaveGetInterfaceHash(type))`
comparison (equal strings); a mismatch throws `openrave_exception`, embedded
as `Except.error`.  `penvValid` is `!!penv`.  The requested name is the whole
string passed in; the function takes its first whitespace token and lowercases
it before matching. -/
def rmanipCreateInterface (hashOk : Bool) (penvValid : Bool)
    (type : InterfaceType) (name : List String) :
    Except String (Option RmanipIface) :=
  if ¬ hashOk then .error "bad plugin hash"
  else if ¬ penvValid then .ok none
  else
    let interfacename := strToLower ((extractToken name).1.getD "")
    match type with
    | .PT_ProblemInstance =>
      if interfacename = "basemanipulation" then .ok (some .baseManipulation)
      else if interfacename = "taskmanipulation" then .ok (some .taskManipulation)
      else if interfacename = "taskcaging" then .ok (some .taskCaging)
      else if interfacename = "visualfeedback" then .ok (some .visualFeedback)
      else .ok none
    | _ => .ok none

end OpenRAVE

namespace OpenRAVE

namespace IkFast

/-- Modelled from the spec: the `FreeParameterSpace` component (design §4.3).
The implementing code (`IkFastSolver`, ikbase.h) is not among the visible
sources; only its interface `IkSolverBase` is.  The space carries the
physical range of each free joint; normalized values in [0,1] map affinely
onto these ranges. -/
structure FreeParameterSpace where
  lower : List ℚ
  upper : List ℚ
deriving DecidableEq, Repr

/-- Modelled from the spec: `toPhysical` maps a normalized free-parameter
vector onto the physical joint ranges, axis by axis. -/
def toPhysical (s : FreeParameterSpace) (v : List ℚ) : List ℚ :=
  List.zipWith (fun lu x => lu.1 + x * (lu.2 - lu.1)) (s.lower.zip s.upper) v

/-- Modelled from the spec: `fromPhysical`, the inverse mapping that reads
normalized free values out of physical joint angles. -/
def fromPhysical (s : FreeParameterSpace) (q : List ℚ) : List ℚ :=
  List.zipWith (fun lu x => (x - lu.1) / (lu.2 - lu.1)) (s.lower.zip s.upper) q

/-- Modelled from the spec: the points of one axis of `grid(increment)`:
0, inc, 2·inc, … while still ≤ 1; an increment ≥ 1 degenerates to the
single point 0 for the axis. -/
def axisPoints (inc : ℚ) : List ℚ :=
  if 1 ≤ inc then [0]
  else (List.range ((Rat.floor (1 / inc)).toNat + 1)).map
    (fun (j : ℕ) => (j : ℚ) * inc)

/-- Modelled from the spec: `grid(increment)` over k axes, enumerated in
lexicographic axis order (the first axis varies slowest). -/
def grid : ℕ → ℚ → List (List ℚ)
  | 0, _ => [[]]
  | k + 1, inc =>
    (axisPoints inc).flatMap (fun x => (grid k inc).map (fun v => x :: v))

/-- The predicate "x is a point of the uniform one-axis grid of step inc
inside [0,1]" in the spec's own words, used to state grid coverage: a
multiple of the increment that is at most 1; increments ≥ 1 degenerate to
the single point 0. -/
def isAxisPoint (inc x : ℚ) : Prop :=
  if 1 ≤ inc then x = 0 else ∃ j : ℕ, x = (j : ℚ) * inc ∧ x ≤ 1

/-- Modelled from the spec: a manipulator's declared joint range, one lower
and one upper bound per controllable joint. -/
structure JointLimits where
  lowerLimit : List ℚ
  upperLimit : List ℚ
deriving DecidableEq, Repr

/-- Modelled from the spec: the joint-limit check of `SolutionFilter`: a
candidate passes only when every joint value lies inside the declared range
(hard rejection of the whole candidate otherwise, never clamping). -/
def withinLimits (m : JointLimits) (q : List ℚ) : Bool :=
  (q.zip (m.lowerLimit.zip m.upperLimit)).all
    (fun p => decide (p.2.1 ≤ p.1) && decide (p.1 ≤ p.2.2))

/-- Modelled from the spec: `SolutionFilter` survival: the joint-limit check
first, then — only when the caller requested it — the external collision
oracle. -/
def survives (m : JointLimits) (checkCollision : Bool)
    (isColliding : List ℚ → Bool) (q : List ℚ) : Bool :=
  withinLimits m q && (!checkCollision || !isColliding q)

/-- Modelled from the spec: the free-parameter combinations `NullSpaceSearch`
visits: the caller-pinned vector alone when explicit free values are
supplied, otherwise the whole grid. -/
def searchCells (k : ℕ) (inc : ℚ) : Option (List ℚ) → List (List ℚ)
  | some v => [v]
  | none => grid k inc

/-- Modelled from the spec: `solveAll` (design §4.6): invoke the analytic
kernel at every searched free-parameter combination, accumulate every
candidate and keep the survivors in discovery order.  The kernel is the
external collaborator `solve(parameterization, fixedFreeValues)`. -/
def solveAll (kernel : Parameterization → List ℚ → List (List ℚ))
    (s : FreeParameterSpace) (m : JointLimits) (inc : ℚ)
    (param : Parameterization) (explicitFree : Option (List ℚ))
    (checkCollision : Bool) (isColliding : List ℚ → Bool) : List (List ℚ) :=
  ((searchCells s.lower.length inc explicitFree).flatMap
      (fun v => kernel param (toPhysical s v))).filter
    (survives m checkCollision isColliding)

/-- Modelled from the spec: joint-space distance to the seed — a sum of
per-joint absolute differences. -/
def jointDist (a b : List ℚ) : ℚ :=
  ((a.zip b).map (fun p => |p.1 - p.2|)).sum

/-- Modelled from the spec: among the survivors choose the candidate nearest
to the seed; the earliest in discovery order wins ties. -/
def pickNearest (q0 : List ℚ) : List (List ℚ) → Option (List ℚ)
  | [] => none
  | q :: rest =>
    match pickNearest q0 rest with
    | none => some q
    | some r => if jointDist q q0 ≤ jointDist r q0 then some q else some r

/-- Modelled from the spec: `solve` (design §4.6): the single best surviving
configuration — nearest the seed when one is given, else the first survivor
in grid order; absent when nothing survives. -/
def solve (kernel : Parameterization → List ℚ → List (List ℚ))
    (s : FreeParameterSpace) (m : JointLimits) (inc : ℚ)
    (param : Parameterization) (seed : Option (List ℚ))
    (explicitFree : Option (List ℚ)) (checkCollision : Bool)
    (isColliding : List ℚ → Bool) : Option (List ℚ) :=
  let sols := solveAll kernel s m inc param explicitFree checkCollision isColliding
  match seed with
  | none => sols.head?
  | some q0 => pickNearest q0 sols

/-- Modelled from the spec: the manipulator data `Init` checks the bound
kernel against: controllable joint count, redundancy count and the
manipulator's computed kinematics identity hash. -/
structure Manipulator where
  armJointCount : ℕ
  redundancy : ℕ
  kinematicsHash : String
deriving DecidableEq, Repr

/-- Modelled from the spec: the metadata the bound analytic kernel reports:
`numJoints()`, `numFreeParameters()` and `kinematicsIdentityHash()`. -/
structure KernelMeta where
  numJoints : ℕ
  numFreeParameters : ℕ
  kinematicsHash : String
deriving DecidableEq, Repr

/-- Modelled from the spec: a solver instance: the bound kernel's metadata
plus the manipulator binding, absent while the solver is uninitialized. -/
structure SolverState where
  meta : KernelMeta
  boundManip : Option Manipulator
deriving DecidableEq, Repr

/-- Modelled from the spec: `Init(manipulator)` (design §4.6 and §7,
BindingMismatch): succeeds and binds the manipulator only when the kernel's
reported counts and kinematics identity hash all match; on mismatch it
fails and the solver is left uninitialized. -/
def Init (st : SolverState) (man : Manipulator) : Bool × SolverState :=
  if st.meta.numJoints = man.armJointCount ∧
      st.meta.numFreeParameters = man.redundancy ∧
      st.meta.kinematicsHash = man.kinematicsHash
  then (true, { st with boundManip := some man })
  else (false, { st with boundManip := none })

/-- Modelled from the spec: a solve call on a solver instance; an
uninitialized solver (no manipulator binding) is unusable and produces no
solution. -/
def solverSolve (st : SolverState)
    (kernel : Parameterization → List ℚ → List (List ℚ))
    (s : FreeParameterSpace) (m : JointLimits) (inc : ℚ)
    (param : Parameterization) (seed : Option (List ℚ))
    (explicitFree : Option (List ℚ)) (checkCollision : Bool)
    (isColliding : List ℚ → Bool) : Option (List ℚ) :=
  match st.boundManip with
  | none => none
  | some _ => solve kernel s m inc param seed explicitFree checkCollision isColliding

end IkFast

end OpenRAVE

namespace OpenRAVE.IkFast

/-- A point is listed on a grid axis exactly when it is a grid point of the
axis in the sense of the spec. -/
theorem mem_axisPoints {inc x : ℚ} (h : 0 < inc) :
    x ∈ axisPoints inc ↔ isAxisPoint inc x := by
  unfold axisPoints isAxisPoint
  split
  · simp
  · rename_i h1
    push_neg at h1
    have hfl0 : 0 ≤ (1 / inc).floor := by
      have h2 : ((0 : ℤ) : ℚ) ≤ 1 / inc := by positivity
      exact Rat.le_floor.mpr h2
    constructor
    · intro hx
      obtain ⟨j, hj, rfl⟩ := List.mem_map.mp hx
      rw [List.mem_range] at hj
      refine ⟨j, rfl, ?_⟩
      have hj' : (j : ℤ) ≤ (1 / inc).floor := by
        rw [← Int.le_toNat hfl0]
        omega
      have hq : (j : ℚ) ≤ 1 / inc := by exact_mod_cast Rat.le_floor.mp hj'
      calc (j : ℚ) * inc ≤ (1 / inc) * inc :=
            mul_le_mul_of_nonneg_right hq (le_of_lt h)
        _ = 1 := by field_simp
    · rintro ⟨j, rfl, hle⟩
      refine List.mem_map.mpr ⟨j, List.mem_range.mpr ?_, rfl⟩
      have hq : (j : ℚ) ≤ 1 / inc := by
        rw [le_div_iff₀ h]
        exact hle
      have hj' : (j : ℤ) ≤ (1 / inc).floor :=
        Rat.le_floor.mpr (by exact_mod_cast hq)
      have := (Int.le_toNat hfl0).mpr hj'
      omega

/-- A vector is listed by the grid exactly when it has one coordinate per
axis and every coordinate lies on its axis. -/
theorem mem_grid {inc : ℚ} : ∀ {k : ℕ} {v : List ℚ},
    v ∈ grid k inc ↔ v.length = k ∧ ∀ x ∈ v, x ∈ axisPoints inc := by
  intro k
  induction k with
  | zero =>
    intro v
    simp only [grid, List.mem_singleton]
    constructor
    · rintro rfl
      exact ⟨rfl, by simp⟩
    · rintro ⟨hlen, _⟩
      exact List.length_eq_zero.mp hlen
  | succ k ih =>
    intro v
    simp only [grid, List.mem_flatMap, List.mem_map]
    constructor
    · rintro ⟨x, hx, w, hw, rfl⟩
      obtain ⟨hlen, hall⟩ := ih.mp hw
      refine ⟨by simp [hlen], ?_⟩
      intro y hy
      rcases List.mem_cons.mp hy with rfl | hy
      · exact hx
      · exact hall y hy
    · rintro ⟨hlen, hall⟩
      cases v with
      | nil => simp at hlen
      | cons x w =>
        refine ⟨x, hall x (List.mem_cons_self x w), w,
          ih.mpr ⟨by simpa using hlen, ?_⟩, rfl⟩
        intro y hy
        exact hall y (List.mem_cons_of_mem x hy)

/-- Axis points are enumerated in strictly increasing order. -/
theorem axisPoints_pairwise {inc : ℚ} (h : 0 < inc) :
    (axisPoints inc).Pairwise (· < ·) := by
  unfold axisPoints
  split
  · simp
  · rw [List.pairwise_map]
    exact (List.pairwise_lt_range _).imp
      (fun hab => mul_lt_mul_of_pos_right (by exact_mod_cast hab) h)

/-- Grid vectors are enumerated in strictly increasing lexicographic order
(first axis most significant). -/
theorem grid_pairwise {inc : ℚ} (h : 0 < inc) :
    ∀ k, (grid k inc).Pairwise (List.Lex (· < ·)) := by
  intro k
  induction k with
  | zero => simp [grid]
  | succ k ih =>
    rw [grid, List.pairwise_flatMap]
    constructor
    · intro a _
      rw [List.pairwise_map]
      exact ih.imp fun hvw => List.Lex.cons hvw
    · refine (axisPoints_pairwise h).imp ?_
      intro a b hab y1 hy1 y2 hy2
      obtain ⟨v1, _, rfl⟩ := List.mem_map.mp hy1
      obtain ⟨v2, _, rfl⟩ := List.mem_map.mp hy2
      exact List.Lex.rel hab

/-- The affine normalized-to-physical map and its inverse compose to the
identity componentwise, whenever every range is nondegenerate. -/
theorem roundtrip_aux : ∀ (ps : List (ℚ × ℚ)) (v : List ℚ),
    v.length = ps.length → (∀ p ∈ ps, p.1 < p.2) →
    List.zipWith (fun lu x => (x - lu.1) / (lu.2 - lu.1)) ps
      (List.zipWith (fun lu x => lu.1 + x * (lu.2 - lu.1)) ps v) = v := by
  intro ps
  induction ps with
  | nil =>
    intro v hv _
    simpa using List.length_eq_zero.mp (by simpa using hv)
  | cons p ps ih =>
    intro v hv hnd
    cases v with
    | nil => simp at hv
    | cons x xs =>
      simp only [List.zipWith_cons_cons, List.cons.injEq]
      constructor
      · have hne : p.2 - p.1 ≠ 0 :=
          sub_ne_zero_of_ne (ne_of_gt (hnd p (List.mem_cons_self p ps)))
        field_simp
      · exact ih xs (by simpa using hv)
          (fun q hq => hnd q (List.mem_cons_of_mem p hq))

/-- The nearest-to-seed selection only ever returns a member of its input
list. -/
theorem pickNearest_mem {q0 : List ℚ} :
    ∀ {l : List (List ℚ)} {r : List ℚ}, pickNearest q0 l = some r → r ∈ l := by
  intro l
  induction l with
  | nil => intro r h; simp [pickNearest] at h
  | cons q rest ih =>
    intro r h
    rcases hrec : pickNearest q0 rest with _ | s <;>
      simp only [pickNearest, hrec] at h
    · simp only [Option.some_inj] at h
      subst h
      exact List.mem_cons_self q rest
    · split at h <;> simp only [Option.some_inj] at h <;> subst h
      · exact List.mem_cons_self q rest
      · exact List.mem_cons_of_mem q (ih hrec)

/-- Any solution solve reports comes from the survivor list of solveAll. -/
theorem solve_mem {kernel s m inc param seed explicitFree cc oracle r} :
    solve kernel s m inc param seed explicitFree cc oracle = some r →
    r ∈ solveAll kernel s m inc param explicitFree cc oracle := by
  unfold solve
  cases seed with
  | none => exact fun h => List.mem_of_mem_head? h
  | some q0 => exact pickNearest_mem

end OpenRAVE.IkFast

/-- C7: for every ray r, a Parameterization built by SetRay r (or the ray
constructor) stores r's direction in the rotation slot and r's origin in the
translation slot, its GetType is Type_Ray4D, and GetRay returns a ray whose
position equals r's origin and direction equals r's direction, so SetRay
followed by GetRay is the identity on rays. -/
theorem setray_packs_ray (p : OpenRAVE.Parameterization) (r : OpenRAVE.RAY) :
    (p.SetRay r).GetType = .Type_Ray4D ∧
    (p.SetRay r).GetRotation = r.dir ∧
    (p.SetRay r).GetTranslation = r.pos ∧
    (p.SetRay r).GetRay = r ∧
    (OpenRAVE.Parameterization.ofRay r).GetType = .Type_Ray4D ∧
    (OpenRAVE.Parameterization.ofRay r).GetRay = r := by
  refine ⟨rfl, rfl, rfl, ?_, rfl, ?_⟩ <;> cases r <;> rfl

/-- C8: each variant setter overwrites the type tag to exactly its own
variant, whatever the previous type was: SetTransform yields Type_Transform6D,
SetRotation yields Type_Rotation3D, SetTranslation yields Type_Translation3D,
SetDirection yields Type_Direction2D and SetRay yields Type_Ray4D. -/
theorem setters_overwrite_type (p : OpenRAVE.Parameterization)
    (t : OpenRAVE.Transform) (q v d : OpenRAVE.Vector) (r : OpenRAVE.RAY) :
    (p.SetTransform t).GetType = .Type_Transform6D ∧
    (p.SetRotation q).GetType = .Type_Rotation3D ∧
    (p.SetTranslation v).GetType = .Type_Translation3D ∧
    (p.SetDirection d).GetType = .Type_Direction2D ∧
    (p.SetRay r).GetType = .Type_Ray4D :=
  ⟨rfl, rfl, rfl, rfl, rfl⟩

/-- C9: frame conditions of the single-slot setters: SetTranslation leaves
the stored rotation slot unchanged, and SetRotation and SetDirection leave the
stored translation slot unchanged; each of these setters modifies only the
type tag and the slot of its own variant. -/
theorem setters_frame_conditions (p : OpenRAVE.Parameterization)
    (q v d : OpenRAVE.Vector) :
    (p.SetTranslation v).GetRotation = p.GetRotation ∧
    (p.SetTranslation v).GetTranslation = v ∧
    (p.SetRotation q).GetTranslation = p.GetTranslation ∧
    (p.SetRotation q).GetRotation = q ∧
    (p.SetDirection d).GetTranslation = p.GetTranslation ∧
    (p.SetDirection d).GetDirection = d :=
  ⟨rfl, rfl, rfl, rfl, rfl, rfl⟩

/-- C6: when the textual key omits the freeIncrement number, the solver that
CreateInterfaceValidated constructs uses the default free-parameter increment
0.04, both for the generic "ikfast name" form (the delegated call receives
0.04) and for the mechanism-specific-name form (the embedded-kernel solver is
constructed with 0.04). -/
theorem default_freeinc
    (createIkSolver : String → ℚ → Option OpenRAVE.IkfastIface)
    (ikfastname kernel : String)
    (h : kernel ∈ OpenRAVE.ikfastKernelNames) :
    OpenRAVE.CreateInterfaceValidated createIkSolver
        .PT_InverseKinematicsSolver "ikfast" [ikfastname]
      = createIkSolver ikfastname (4 / 100) ∧
    OpenRAVE.CreateInterfaceValidated createIkSolver
        .PT_InverseKinematicsSolver kernel []
      = some (.kernelSolver kernel (4 / 100)) := by
  constructor
  · simp [OpenRAVE.CreateInterfaceValidated, OpenRAVE.extractToken,
      OpenRAVE.extractReal]
  · fin_cases h <;>
      simp [OpenRAVE.CreateInterfaceValidated, OpenRAVE.extractReal]

/-- C6 witness: instantiation at the pa10 kernel with an empty stream and at
a generic request "ikfast somerobot" with no trailing number. -/
theorem default_freeinc_witness :
    OpenRAVE.CreateInterfaceValidated (fun _ _ => none)
        .PT_InverseKinematicsSolver "ikfast" ["somerobot"]
      = (fun (_ : String) (_ : ℚ) => (none : Option OpenRAVE.IkfastIface))
          "somerobot" (4 / 100) ∧
    OpenRAVE.CreateInterfaceValidated (fun _ _ => none)
        .PT_InverseKinematicsSolver "pa10ikfast" []
      = some (.kernelSolver "pa10ikfast" (4 / 100)) :=
  default_freeinc (fun _ _ => none) "somerobot" "pa10ikfast"
    (by simp [OpenRAVE.ikfastKernelNames])

/-- C10: a requested interface name matching none of the names the plugin
registers yields an empty interface, for every interface type: the ikfast
dispatch returns none without constructing anything, and the rmanipulation
dispatch, once the plugin-hash check passes, returns ok-none rather than
throwing. -/
theorem unknown_name_returns_null
    (createIkSolver : String → ℚ → Option OpenRAVE.IkfastIface)
    (ty ty2 : OpenRAVE.InterfaceType) (nm : String) (sinput : List String)
    (penvValid : Bool) (name : List String)
    (h1 : nm ∉ "ikfast" :: OpenRAVE.ikfastKernelNames)
    (h2 : OpenRAVE.strToLower ((OpenRAVE.extractToken name).1.getD "") ∉
      ["basemanipulation", "taskmanipulation", "taskcaging", "visualfeedback"]) :
    OpenRAVE.CreateInterfaceValidated createIkSolver ty nm sinput = none ∧
    OpenRAVE.rmanipCreateInterface true penvValid ty2 name = .ok none := by
  have h1' : nm ≠ "ikfast" ∧ nm ≠ "wam7ikfast" ∧ nm ≠ "pa10ikfast" ∧
      nm ≠ "pumaikfast" ∧ nm ≠ "ikfast_pr2_head" ∧
      nm ≠ "ikfast_pr2_head_torso" ∧ nm ≠ "ikfast_pr2_rightarm" ∧
      nm ≠ "ikfast_pr2_rightarm_torso" ∧ nm ≠ "ikfast_pr2_leftarm" ∧
      nm ≠ "ikfast_pr2_leftarm_torso" ∧ nm ≠ "ikfast_schunk_lwa3" ∧
      nm ≠ "ikfast_katana5d" := by
    simpa [OpenRAVE.ikfastKernelNames, not_or] using h1
  obtain ⟨e0, e1, e2, e3, e4, e5, e6, e7, e8, e9, e10, e11⟩ := h1'
  have h2' : OpenRAVE.strToLower ((OpenRAVE.extractToken name).1.getD "") ≠
        "basemanipulation" ∧
      OpenRAVE.strToLower ((OpenRAVE.extractToken name).1.getD "") ≠ "taskmanipulation" ∧
      OpenRAVE.strToLower ((OpenRAVE.extractToken name).1.getD "") ≠ "taskcaging" ∧
      OpenRAVE.strToLower ((OpenRAVE.extractToken name).1.getD "") ≠ "visualfeedback" := by
    simpa [not_or] using h2
  obtain ⟨f0, f1, f2, f3⟩ := h2'
  constructor
  · cases ty <;>
      simp [OpenRAVE.CreateInterfaceValidated, e0, e1, e2, e3, e4, e5, e6,
        e7, e8, e9, e10, e11]
  · cases penvValid <;> cases ty2 <;>
      simp [OpenRAVE.rmanipCreateInterface, f0, f1, f2, f3]

/-- C10 witness: the unregistered name "foo" yields an empty interface from
both plugin factories. -/
theorem unknown_name_returns_null_witness :
    OpenRAVE.CreateInterfaceValidated (fun _ _ => none)
        .PT_InverseKinematicsSolver "foo" [] = none ∧
    OpenRAVE.rmanipCreateInterface true true .PT_ProblemInstance ["foo"]
      = .ok none :=
  unknown_name_returns_null (fun _ _ => none) .PT_InverseKinematicsSolver
    .PT_ProblemInstance "foo" [] true ["foo"] (by decide) (by decide)

/-- C1: for every Parameterization, seed, explicit free-parameter vector and
collision flag, when no candidate produced by the analytic kernel over the
searched free-parameter combinations survives filtering — including the case
of zero branches everywhere — solveAll returns the empty sequence and solve
returns an absent result; both are total functions, so the outcome is never
signalled as an exception. -/
theorem ikfast_no_solution_is_empty
    (kernel : OpenRAVE.Parameterization → List ℚ → List (List ℚ))
    (s : OpenRAVE.IkFast.FreeParameterSpace) (m : OpenRAVE.IkFast.JointLimits)
    (inc : ℚ) (param : OpenRAVE.Parameterization)
    (explicitFree : Option (List ℚ)) (cc : Bool) (oracle : List ℚ → Bool)
    (h : ∀ v ∈ OpenRAVE.IkFast.searchCells s.lower.length inc explicitFree,
      ∀ c ∈ kernel param (OpenRAVE.IkFast.toPhysical s v),
        OpenRAVE.IkFast.survives m cc oracle c = false) :
    OpenRAVE.IkFast.solveAll kernel s m inc param explicitFree cc oracle = [] ∧
    ∀ seed, OpenRAVE.IkFast.solve kernel s m inc param seed explicitFree cc
      oracle = none := by
  have hall :
      OpenRAVE.IkFast.solveAll kernel s m inc param explicitFree cc oracle
        = [] := by
    unfold OpenRAVE.IkFast.solveAll
    rw [List.filter_eq_nil_iff]
    intro a ha
    obtain ⟨v, hv, hc⟩ := List.mem_flatMap.mp ha
    simp [h v hv a hc]
  refine ⟨hall, ?_⟩
  intro seed
  unfold OpenRAVE.IkFast.solve
  rw [hall]
  cases seed <;> simp [OpenRAVE.IkFast.pickNearest]

/-- C1 witness: a kernel with zero branches everywhere yields an empty
solution sequence and an absent single solution. -/
theorem ikfast_no_solution_is_empty_witness :
    OpenRAVE.IkFast.solveAll (fun _ _ => []) ⟨[0], [1]⟩ ⟨[0], [1]⟩ 1
      OpenRAVE.Parameterization.default none false (fun _ => false) = [] ∧
    OpenRAVE.IkFast.solve (fun _ _ => []) ⟨[0], [1]⟩ ⟨[0], [1]⟩ 1
      OpenRAVE.Parameterization.default none none false (fun _ => false)
      = none := by
  have H := ikfast_no_solution_is_empty (fun _ _ => []) ⟨[0], [1]⟩ ⟨[0], [1]⟩
    1 OpenRAVE.Parameterization.default none false (fun _ => false)
    (fun _ _ c hc => absurd hc (List.not_mem_nil c))
  exact ⟨H.1, H.2 none⟩

/-- C2: every configuration in the output of solveAll satisfies the declared
joint limits and is literally one of the kernel's candidates (discarding, not
clamping), every configuration solve returns satisfies the limits, and a
candidate violating any limit is absent from the output. -/
theorem ikfast_limit_invariant
    (kernel : OpenRAVE.Parameterization → List ℚ → List (List ℚ))
    (s : OpenRAVE.IkFast.FreeParameterSpace) (m : OpenRAVE.IkFast.JointLimits)
    (inc : ℚ) (param : OpenRAVE.Parameterization)
    (seed explicitFree : Option (List ℚ)) (cc : Bool)
    (oracle : List ℚ → Bool) (q r c : List ℚ)
    (hq : q ∈ OpenRAVE.IkFast.solveAll kernel s m inc param explicitFree cc
      oracle)
    (hr : OpenRAVE.IkFast.solve kernel s m inc param seed explicitFree cc
      oracle = some r) :
    OpenRAVE.IkFast.withinLimits m q = true ∧
    (∃ v ∈ OpenRAVE.IkFast.searchCells s.lower.length inc explicitFree,
      q ∈ kernel param (OpenRAVE.IkFast.toPhysical s v)) ∧
    OpenRAVE.IkFast.withinLimits m r = true ∧
    (OpenRAVE.IkFast.withinLimits m c = false →
      c ∉ OpenRAVE.IkFast.solveAll kernel s m inc param explicitFree cc
        oracle) := by
  have hmem : ∀ {x : List ℚ},
      x ∈ OpenRAVE.IkFast.solveAll kernel s m inc param explicitFree cc
        oracle →
      OpenRAVE.IkFast.withinLimits m x = true ∧
      ∃ v ∈ OpenRAVE.IkFast.searchCells s.lower.length inc explicitFree,
        x ∈ kernel param (OpenRAVE.IkFast.toPhysical s v) := by
    intro x hx
    unfold OpenRAVE.IkFast.solveAll at hx
    obtain ⟨hx1, hx2⟩ := List.mem_filter.mp hx
    exact ⟨(Bool.and_eq_true _ _ |>.mp hx2).1, List.mem_flatMap.mp hx1⟩
  obtain ⟨h1, h2⟩ := hmem hq
  obtain ⟨h3, -⟩ := hmem (OpenRAVE.IkFast.solve_mem hr)
  refine ⟨h1, h2, h3, ?_⟩
  intro hc hcmem
  rw [(hmem hcmem).1] at hc
  simp at hc

/-- C2 witness: a kernel producing the single in-range candidate [0]; the
candidate survives, is the returned solution, and satisfies the limits. -/
theorem ikfast_limit_invariant_witness :
    OpenRAVE.IkFast.withinLimits ⟨[0], [1]⟩ [0] = true ∧
    (∃ v ∈ OpenRAVE.IkFast.searchCells 1 1 (some [0]),
      [0] ∈ (fun (_ : OpenRAVE.Parameterization) (_ : List ℚ) =>
        [[(0 : ℚ)]]) OpenRAVE.Parameterization.default
          (OpenRAVE.IkFast.toPhysical ⟨[0], [1]⟩ v)) ∧
    OpenRAVE.IkFast.withinLimits ⟨[0], [1]⟩ [0] = true ∧
    (OpenRAVE.IkFast.withinLimits ⟨[0], [1]⟩ [0] = false →
      [0] ∉ OpenRAVE.IkFast.solveAll (fun _ _ => [[(0 : ℚ)]]) ⟨[0], [1]⟩
        ⟨[0], [1]⟩ 1 OpenRAVE.Parameterization.default (some [0]) false
        (fun _ => false)) :=
  ikfast_limit_invariant (fun _ _ => [[(0 : ℚ)]]) ⟨[0], [1]⟩ ⟨[0], [1]⟩ 1
    OpenRAVE.Parameterization.default none (some [0]) false (fun _ => false)
    [0] [0] [0] (by decide) (by decide)

/-- C3: Init fails whenever the kernel's reported joint count, free-parameter
count or kinematics identity hash differs from the manipulator's; on such
failure the solver carries no manipulator binding and every solve on it
produces no solution. -/
theorem ikfast_init_mismatch_fails (st : OpenRAVE.IkFast.SolverState)
    (man : OpenRAVE.IkFast.Manipulator)
    (h : st.meta.numJoints ≠ man.armJointCount ∨
      st.meta.numFreeParameters ≠ man.redundancy ∨
      st.meta.kinematicsHash ≠ man.kinematicsHash) :
    (OpenRAVE.IkFast.Init st man).1 = false ∧
    (OpenRAVE.IkFast.Init st man).2.boundManip = none ∧
    ∀ kernel s m inc param seed explicitFree cc oracle,
      OpenRAVE.IkFast.solverSolve (OpenRAVE.IkFast.Init st man).2 kernel s m
        inc param seed explicitFree cc oracle = none := by
  have hcond : ¬(st.meta.numJoints = man.armJointCount ∧
      st.meta.numFreeParameters = man.redundancy ∧
      st.meta.kinematicsHash = man.kinematicsHash) := by tauto
  unfold OpenRAVE.IkFast.Init
  rw [if_neg hcond]
  exact ⟨rfl, rfl, fun _ _ _ _ _ _ _ _ _ => rfl⟩

/-- C3 witness: a kernel reporting 7 joints bound against a 6-joint
manipulator: initialization fails, the solver stays unbound and solving
yields nothing. -/
theorem ikfast_init_mismatch_fails_witness :
    (OpenRAVE.IkFast.Init ⟨⟨7, 1, "abc"⟩, none⟩ ⟨6, 1, "abc"⟩).1 = false ∧
    (OpenRAVE.IkFast.Init ⟨⟨7, 1, "abc"⟩, none⟩ ⟨6, 1, "abc"⟩).2.boundManip
      = none ∧
    OpenRAVE.IkFast.solverSolve
      (OpenRAVE.IkFast.Init ⟨⟨7, 1, "abc"⟩, none⟩ ⟨6, 1, "abc"⟩).2
      (fun _ _ => []) ⟨[0], [1]⟩ ⟨[0], [1]⟩ 1
      OpenRAVE.Parameterization.default none none false (fun _ => false)
      = none := by
  have H := ikfast_init_mismatch_fails ⟨⟨7, 1, "abc"⟩, none⟩ ⟨6, 1, "abc"⟩
    (Or.inl (by decide))
  exact ⟨H.1, H.2.1, H.2.2 (fun _ _ => []) ⟨[0], [1]⟩ ⟨[0], [1]⟩ 1
    OpenRAVE.Parameterization.default none none false (fun _ => false)⟩

/-- C4: for every free-parameter vector with components in [0,1] and one
component per free joint, mapping to physical joint angles and back is the
identity, provided every free joint's range is nondegenerate (the
non-wrap-around case). -/
theorem freeparam_roundtrip (s : OpenRAVE.IkFast.FreeParameterSpace)
    (v : List ℚ)
    (hlen : s.lower.length = s.upper.length)
    (hv : v.length = s.lower.length)
    (_hrange : ∀ x ∈ v, 0 ≤ x ∧ x ≤ 1)
    (hnd : ∀ p ∈ s.lower.zip s.upper, p.1 < p.2) :
    OpenRAVE.IkFast.fromPhysical s (OpenRAVE.IkFast.toPhysical s v) = v := by
  unfold OpenRAVE.IkFast.fromPhysical OpenRAVE.IkFast.toPhysical
  exact OpenRAVE.IkFast.roundtrip_aux _ v
    (by simp [List.length_zip, hlen, hv]) hnd

/-- C4 witness: the round trip at the two-axis space with ranges [0,1] and
[0,2], evaluated at the normalized vector (0, 1). -/
theorem freeparam_roundtrip_witness :
    OpenRAVE.IkFast.fromPhysical ⟨[0, 0], [1, 2]⟩
      (OpenRAVE.IkFast.toPhysical ⟨[0, 0], [1, 2]⟩ [0, 1]) = [0, 1] :=
  freeparam_roundtrip ⟨[0, 0], [1, 2]⟩ [0, 1] rfl rfl (by decide) (by decide)

/-- C5: for every increment greater than 0, the grid enumeration is the
fixed finite sequence containing exactly the points of the uniform grid of
step inc inside [0,1]^k (each coordinate a multiple of the increment that is
at most 1; increments ≥ 1 degenerating to the single point 0 per axis), with
no repetition, in strictly increasing lexicographic axis order — membership
and the strict order determine the sequence uniquely, so the same increment
always reproduces it. -/
theorem grid_deterministic_lex_coverage (k : ℕ) (inc : ℚ) (h : 0 < inc) :
    (∀ v, v ∈ OpenRAVE.IkFast.grid k inc ↔
      (v.length = k ∧ ∀ x ∈ v, OpenRAVE.IkFast.isAxisPoint inc x)) ∧
    (OpenRAVE.IkFast.grid k inc).Pairwise (List.Lex (· < ·)) := by
  constructor
  · intro v
    rw [OpenRAVE.IkFast.mem_grid]
    exact and_congr_right fun _ =>
      forall₂_congr fun x _ => OpenRAVE.IkFast.mem_axisPoints h
  · exact OpenRAVE.IkFast.grid_pairwise h k

/-- C5 witness: the one-axis grid of increment 1/4, probed at the vector
consisting of the single point 1/4. -/
theorem grid_deterministic_lex_coverage_witness :
    ([(1 : ℚ)/4] ∈ OpenRAVE.IkFast.grid 1 (1/4) ↔
      (([(1 : ℚ)/4].length = 1) ∧
        ∀ x ∈ [(1 : ℚ)/4], OpenRAVE.IkFast.isAxisPoint (1/4) x)) ∧
    (OpenRAVE.IkFast.grid 1 (1/4)).Pairwise (List.Lex (· < ·)) :=
  ⟨(grid_deterministic_lex_coverage 1 (1/4) (by norm_num)).1 [(1 : ℚ)/4],
    (grid_deterministic_lex_coverage 1 (1/4) (by norm_num)).2⟩
